import Mathlib

set_option maxRecDepth 8000

/-! Shallow embedding of the AtonixCorp platform's Zookeeper-backed
coordination layer: the code of backend/core/zookeeper_client.py,
backend/core/config_manager.py, backend/core/distributed_lock.py and
backend/core/service_discovery.py.

Node payloads are UTF-8 JSON; we model parsed JSON values directly
(json.dumps followed by json.loads is the identity on this domain).
The ensemble and the kazoo library are external collaborators: their
nondeterministic outcomes (connection success, lock acquisition,
watch events) enter as explicit oracle parameters, while everything
the repository's own code does is translated statement by statement. -/

/-- JSON values as stored in Zookeeper nodes. Python dicts become
association lists in insertion order; Python None is `null`. -/
inductive JValue : Type
  | null
  | bool (b : Bool)
  | num (n : Int)
  | str (s : String)
  | arr (xs : List JValue)
  | obj (fields : List (String × JValue))

/-- Python truthiness of a parsed JSON value: None, False, 0, "", [] and
\x7b\x7d are falsy, everything else truthy. -/
def JValue.truthy : JValue → Bool
  | .null => false
  | .bool b => b
  | .num n => decide (n ≠ 0)
  | .str s => decide (s ≠ "")
  | .arr xs => !xs.isEmpty
  | .obj fields => !fields.isEmpty

/-- Truthiness of a Python Optional: None is falsy. -/
def pyTruthyOpt : Option JValue → Bool
  | none => false
  | some v => v.truthy

/-- First binding of a key in an association list (Python dict lookup;
keys written by this code base are distinct). -/
def assocGet : List (String × JValue) → String → Option JValue
  | [], _ => none
  | (k, v) :: t, p => if k = p then some v else assocGet t p

/-- The name Python's type(value).__name__ gives the JSON value, as used
by ConfigManager.set_setting. -/
def JValue.pyTypeName : JValue → String
  | .null => "NoneType"
  | .bool _ => "bool"
  | .num _ => "int"
  | .str _ => "str"
  | .arr _ => "list"
  | .obj _ => "dict"

/-- Result of running a piece of Python code: a value, or a raised
exception identified by its type name. -/
inductive PResult (α : Type) : Type
  | ok (a : α)
  | exc (e : String)
  deriving DecidableEq, Repr

/-- The data of one Zookeeper node: `some v` when the payload parses as
JSON value `v`, `none` when json.loads would fail on it (for example the
empty payload ensure_path leaves behind). -/
abbrev NodeData := Option JValue

/-- Read a node: `none` when the path is absent, `some d` its raw data
otherwise. -/
def storeGet : List (String × NodeData) → String → Option NodeData
  | [], _ => none
  | (k, v) :: t, p => if k = p then some v else storeGet t p

/-- Remove a node (all bindings of the path). -/
def storeDel : List (String × NodeData) → String → List (String × NodeData)
  | [], _ => []
  | (k, v) :: t, p => if k = p then storeDel t p else (k, v) :: storeDel t p

/-- Create or overwrite a node. -/
def storeSet (nodes : List (String × NodeData)) (path : String) (v : NodeData) :
    List (String × NodeData) :=
  (path, v) :: storeDel nodes path

/-- List-level string helpers (kept structural so concrete states
evaluate by rfl). -/
def listIsPre : List Char → List Char → Bool
  | [], _ => true
  | _ :: _, [] => false
  | c :: cs, d :: ds => c == d && listIsPre cs ds

/-- Does `s` start with `pre` (Python startswith)? -/
def strStartsWith (s pre : String) : Bool :=
  listIsPre pre.data s.data

/-- Drop the first `n` characters of `s` (Python slicing s[n:]). -/
def strDrop (s : String) (n : Nat) : String :=
  String.mk (s.data.drop n)

/-- Length of `s` in characters. -/
def strLen (s : String) : Nat :=
  s.data.length

/-- Does `s` contain the character `c`? -/
def strHasChar (s : String) (c : Char) : Bool :=
  s.data.contains c

/-- Does any node lie strictly below `path` (Zookeeper children /
descendants)? A non-recursive delete of a node with children raises
NotEmptyError. -/
def hasDescendant (nodes : List (String × NodeData)) (path : String) : Bool :=
  nodes.any (fun kv => strStartsWith kv.1 (path ++ "/"))

/-- Remove a node and everything below it (recursive delete). -/
def storeDelRec (nodes : List (String × NodeData)) (path : String) :
    List (String × NodeData) :=
  nodes.filter (fun kv => !(kv.1 == path) && !(strStartsWith kv.1 (path ++ "/")))

/-- State of the ZookeeperClient object together with the ensemble it
talks to: the node tree, the set of currently held recipe locks, and the
client's own `self.connected` flag. -/
structure ZKState : Type where
  nodes : List (String × NodeData)
  locks : List String
  connected : Bool

/-- Outcome the environment chooses for one `self.client.start(timeout=30)`
call: success, or the exception kazoo raises (for an unreachable ensemble,
its timeout error). -/
inductive ConnectEnv : Type
  | ok
  | fail (e : String)
  deriving DecidableEq, Repr

/-- ZookeeperClient.connect: on success set `self.connected = True`; on any
exception log it, set `self.connected = False`, and re-raise the same
exception (there is no retry loop of its own and no conversion of the
exception type). -/
def ZookeeperClient.connect (st : ZKState) (cenv : ConnectEnv) :
    PResult Unit × ZKState :=
  match cenv with
  | .ok => (.ok (), { st with connected := true })
  | .fail e => (.exc e, { st with connected := false })

/-- The `if not self.connected: self.connect()` preamble every public
method starts with. -/
def ZookeeperClient.ensureConnected (st : ZKState) (cenv : ConnectEnv) :
    PResult Unit × ZKState :=
  if st.connected then (.ok (), st) else ZookeeperClient.connect st cenv

/-- ZookeeperClient.get_config: if the node exists, parse its payload and
return it; if the node is absent return `default`; any exception inside the
try (such as a json.loads failure on malformed data) also returns
`default`. The connection preamble sits before the try, so a failed
reconnect propagates. -/
def ZookeeperClient.get_config (st : ZKState) (cenv : ConnectEnv)
    (path : String) (default : Option JValue) : PResult (Option JValue) × ZKState :=
  match ZookeeperClient.ensureConnected st cenv with
  | (.exc e, st1) => (.exc e, st1)
  | (.ok _, st1) =>
    match storeGet st1.nodes path with
    | some (some v) => (.ok (some v), st1)
    | some none => (.ok default, st1)
    | none => (.ok default, st1)

/-- ZookeeperClient.set_config: serialize `data` to JSON, then `set` if the
node exists, else `create` with makepath=True (honouring `ephemeral`; the
persistence mode only matters at session end, which is outside this model,
so the flag is carried but unused). Exceptions in the try are re-raised. -/
def ZookeeperClient.set_config (st : ZKState) (cenv : ConnectEnv)
    (path : String) (data : JValue) (ephemeral : Bool) : PResult Unit × ZKState :=
  match ZookeeperClient.ensureConnected st cenv with
  | (.exc e, st1) => (.exc e, st1)
  | (.ok _, st1) =>
    if (storeGet st1.nodes path).isSome then
      (.ok (), { st1 with nodes := storeSet st1.nodes path (some data) })
    else
      (.ok (), { st1 with nodes := storeSet st1.nodes path (some data) })

/-- ZookeeperClient.delete_node: delete the node (recursively when asked);
NoNodeError is caught and only logged, every other exception (such as
NotEmptyError on a non-recursive delete of a node with children) is
re-raised. -/
def ZookeeperClient.delete_node (st : ZKState) (cenv : ConnectEnv)
    (path : String) (recursive : Bool) : PResult Unit × ZKState :=
  match ZookeeperClient.ensureConnected st cenv with
  | (.exc e, st1) => (.exc e, st1)
  | (.ok _, st1) =>
    if recursive then
      (.ok (), { st1 with nodes := storeDelRec st1.nodes path })
    else
      match storeGet st1.nodes path with
      | none => (.ok (), st1)
      | some _ =>
        if hasDescendant st1.nodes path then
          (.exc "NotEmptyError", st1)
        else
          (.ok (), { st1 with nodes := storeDel st1.nodes path })

/-- Outcome the environment chooses for one kazoo `lock.acquire(timeout=t)`
call: acquired, the LockTimeout kazoo raises when `t` elapses, or some
other error. -/
inductive LockOutcome : Type
  | acquired
  | timedOut
  | err (e : String)
  deriving DecidableEq, Repr

/-- ZookeeperClient.acquire_lock: build the kazoo Lock recipe and call
`acquire(timeout=timeout)`; on success return True, and any exception in
the try (LockTimeout included) is caught and turned into False. The
connection preamble sits before the try. The `timeout` argument only
bounds the blocking wait, which the oracle abstracts. -/
def ZookeeperClient.acquire_lock (st : ZKState) (cenv : ConnectEnv)
    (lock_path : String) (timeout : Nat) (out : LockOutcome) :
    PResult Bool × ZKState :=
  match ZookeeperClient.ensureConnected st cenv with
  | (.exc e, st1) => (.exc e, st1)
  | (.ok _, st1) =>
    match out with
    | .acquired => (.ok true, { st1 with locks := lock_path :: st1.locks })
    | .timedOut => (.ok false, st1)
    | .err _ => (.ok false, st1)

/-- Remove every occurrence of a lock path from the held set. -/
def locksRemove : List String → String → List String
  | [], _ => []
  | q :: t, p => if q = p then locksRemove t p else q :: locksRemove t p

/-- ZookeeperClient.release_lock: build the Lock recipe for the path and
call `release()`; exceptions inside the try are caught and logged, so the
call reports success, but the connection preamble before the try can
raise. -/
def ZookeeperClient.release_lock (st : ZKState) (cenv : ConnectEnv)
    (lock_path : String) : PResult Unit × ZKState :=
  match ZookeeperClient.ensureConnected st cenv with
  | (.exc e, st1) => (.exc e, st1)
  | (.ok _, st1) =>
    (.ok (), { st1 with locks := locksRemove st1.locks lock_path })

/-- One step of the discover_services accumulation loop: for each child,
`self.get_config(node_path)` (default None), appended only when truthy; an
exception aborts the loop (the surrounding except then returns what was
accumulated). With a connected client get_config is pure, so its returned
state is the input state. -/
def ZookeeperClient.discoverLoop (st : ZKState) (cenv : ConnectEnv)
    (service_path : String) : List String → List JValue → List JValue
  | [], acc => acc
  | child :: rest, acc =>
    match ZookeeperClient.get_config st cenv (service_path ++ "/" ++ child) none with
    | (.ok (some v), _) =>
      if v.truthy then
        ZookeeperClient.discoverLoop st cenv service_path rest (acc ++ [v])
      else
        ZookeeperClient.discoverLoop st cenv service_path rest acc
    | (.ok none, _) => ZookeeperClient.discoverLoop st cenv service_path rest acc
    | (.exc _, _) => acc

/-- The child names of a path: final segments of the node paths directly
below it. -/
def zkChildren (nodes : List (String × NodeData)) (parent : String) : List String :=
  (nodes.filter (fun kv =>
      strStartsWith kv.1 (parent ++ "/") &&
      !(strHasChar (strDrop kv.1 (strLen (parent ++ "/"))) '/') &&
      decide (strLen (parent ++ "/") < strLen kv.1))).map
    (fun kv => strDrop kv.1 (strLen (parent ++ "/")))

/-- ZookeeperClient.discover_services: if `/services/<name>` exists, walk
its children resolving each to its JSON payload (skipping falsy ones);
otherwise log a warning. Exceptions in the try are swallowed and whatever
was accumulated is returned. -/
def ZookeeperClient.discover_services (st : ZKState) (cenv : ConnectEnv)
    (service_name : String) : PResult (List JValue) × ZKState :=
  match ZookeeperClient.ensureConnected st cenv with
  | (.exc e, st1) => (.exc e, st1)
  | (.ok _, st1) =>
    let service_path := "/services/" ++ service_name
    match storeGet st1.nodes service_path with
    | some _ =>
      (.ok (ZookeeperClient.discoverLoop st1 cenv service_path
              (zkChildren st1.nodes service_path) []), st1)
    | none => (.ok [], st1)

/-- ServiceRegistry.discover_service: delegate to the client; any exception
is caught, logged, and turned into the empty list. -/
def ServiceRegistry.discover_service (st : ZKState) (cenv : ConnectEnv)
    (service_name : String) : PResult (List JValue) × ZKState :=
  match ZookeeperClient.discover_services st cenv service_name with
  | (.ok services, st1) => (.ok services, st1)
  | (.exc _, st1) => (.ok [], st1)

/-- Python `key in v` on a parsed JSON value: key membership for a dict,
element membership for a list, substring test for a string, TypeError
otherwise. -/
def pyInCheck (v : JValue) (key : String) : PResult Bool :=
  match v with
  | .obj fields => .ok (assocGet fields key).isSome
  | .arr xs => .ok (xs.any (fun x =>
      match x with
      | .str s => decide (s = key)
      | _ => false))
  | .str s => .ok (if key = "" then true else decide (1 < (s.splitOn key).length))
  | _ => .exc "TypeError"

/-- Python `v[key]` on a parsed JSON value: dict subscription succeeds or
raises KeyError; anything else raises TypeError for a string index. -/
def pySubscript (v : JValue) (key : String) : PResult JValue :=
  match v with
  | .obj fields =>
    match assocGet fields key with
    | some x => .ok x
    | none => .exc "KeyError"
  | _ => .exc "TypeError"

/-- Python `v.get(key, default)` on a parsed JSON value: a dict method;
anything else raises AttributeError. -/
def pyDictGet (v : JValue) (key : String) (default : JValue) : PResult JValue :=
  match v with
  | .obj fields => .ok ((assocGet fields key).getD default)
  | _ => .exc "AttributeError"

/-- The node path ConfigManager uses for a key: base_path is
`/config/<app_name>`. -/
def ConfigManager.settingPath (app_name key : String) : String :=
  "/config/" ++ app_name ++ "/" ++ key

/-- ConfigManager.set_setting: write the payload with value, description
and declared type name to the key's node. -/
def ConfigManager.set_setting (app_name : String) (st : ZKState)
    (cenv : ConnectEnv) (key : String) (value : JValue) (description : String) :
    PResult Unit × ZKState :=
  ZookeeperClient.set_config st cenv (ConfigManager.settingPath app_name key)
    (JValue.obj [("value", value), ("description", JValue.str description),
      ("type", JValue.str value.pyTypeName)]) false

/-- ConfigManager.get_setting: read the key's node; when the result is
truthy and has a value member, return it, otherwise the default. -/
def ConfigManager.get_setting (app_name : String) (st : ZKState)
    (cenv : ConnectEnv) (key : String) (default : JValue) :
    PResult JValue × ZKState :=
  match ZookeeperClient.get_config st cenv (ConfigManager.settingPath app_name key) none with
  | (.exc e, st1) => (.exc e, st1)
  | (.ok config, st1) =>
    match config with
    | none => (.ok default, st1)
    | some c =>
      if c.truthy then
        match pyInCheck c "value" with
        | .exc e => (.exc e, st1)
        | .ok true =>
          match pySubscript c "value" with
          | .ok x => (.ok x, st1)
          | .exc e => (.exc e, st1)
        | .ok false => (.ok default, st1)
      else (.ok default, st1)

/-- ConfigManager.remove_setting: delete the key's node
(non-recursively). -/
def ConfigManager.remove_setting (app_name : String) (st : ZKState)
    (cenv : ConnectEnv) (key : String) : PResult Unit × ZKState :=
  ZookeeperClient.delete_node st cenv (ConfigManager.settingPath app_name key) false

/-- State of one DistributedLock object: the shared client state plus the
object's own `self._acquired` flag. -/
structure DLState : Type where
  zk : ZKState
  acquiredFlag : Bool

/-- The node path of a DistributedLock: `/locks/<lock_name>`. -/
def DistributedLock.lockPath (lock_name : String) : String :=
  "/locks/" ++ lock_name

/-- DistributedLock.acquire: `self._acquired = acquire_lock(...)` then
return it; if acquire_lock raises, the assignment never happens and the
except returns False with the flag unchanged. -/
def DistributedLock.acquire (lock_name : String) (timeout : Nat)
    (st : DLState) (cenv : ConnectEnv) (out : LockOutcome) : Bool × DLState :=
  match ZookeeperClient.acquire_lock st.zk cenv
      (DistributedLock.lockPath lock_name) timeout out with
  | (.ok b, zk1) => (b, { zk := zk1, acquiredFlag := b })
  | (.exc _, zk1) => (false, { zk := zk1, acquiredFlag := st.acquiredFlag })

/-- DistributedLock.release: only when `self._acquired`, call release_lock
and then clear the flag; an exception is caught and logged, leaving the
flag set. Never raises. -/
def DistributedLock.release (lock_name : String) (st : DLState)
    (cenv : ConnectEnv) : DLState :=
  if st.acquiredFlag then
    match ZookeeperClient.release_lock st.zk cenv
        (DistributedLock.lockPath lock_name) with
    | (.ok _, zk1) => { zk := zk1, acquiredFlag := false }
    | (.exc _, zk1) => { zk := zk1, acquiredFlag := st.acquiredFlag }
  else st

/-- DistributedLock.is_acquired. -/
def DistributedLock.is_acquired (st : DLState) : Bool :=
  st.acquiredFlag

/-- The distributed_lock context manager (and DistributedLock used with
`with`, whose enter/exit do the same): construct a fresh lock object,
acquire it or raise RuntimeError, run the body, and release in the finally
on every exit path — normal value, body exception, or the RuntimeError of
a failed acquisition. -/
def distributed_lock {α : Type} (lock_name : String) (timeout : Nat)
    (cenv : ConnectEnv) (out : LockOutcome)
    (body : ZKState → PResult α × ZKState) (zk0 : ZKState) :
    PResult α × ZKState :=
  let lock0 : DLState := { zk := zk0, acquiredFlag := false }
  match DistributedLock.acquire lock_name timeout lock0 cenv out with
  | (true, lock1) =>
    match body lock1.zk with
    | (.ok v, zk2) =>
      (.ok v, (DistributedLock.release lock_name { lock1 with zk := zk2 } cenv).zk)
    | (.exc e, zk2) =>
      (.exc e, (DistributedLock.release lock_name { lock1 with zk := zk2 } cenv).zk)
  | (false, lock1) =>
    (.exc "RuntimeError", (DistributedLock.release lock_name lock1 cenv).zk)

/-- Outcome the environment chooses for one `task_func(*args, **kwargs)`
call: a returned value (Python None is `JValue.null`) or a raised
exception. -/
inductive TaskOutcome : Type
  | ret (v : JValue)
  | exn (e : String)

/-- Environment of one TaskCoordinator.run_once call: the connection
outcome used whenever the client has to (re)connect, the lock-acquisition
outcome, the task outcome, and the two time.time() readings (start of the
task and recording of its completion). -/
structure RunEnv : Type where
  cenv : ConnectEnv
  lockOut : LockOutcome
  task : TaskOutcome
  startTime : Int
  endTime : Int

/-- The completion node path TaskCoordinator uses:
`/tasks/completed/<task_name>`. -/
def TaskCoordinator.completionPath (task_name : String) : String :=
  "/tasks/completed/" ++ task_name

/-- The except block of run_once, entered when `task_func` (or the
success-marking set_config) raised `e`: write a completion record with
success False and the error string, then re-raise `e`; if that write
itself raises, its exception propagates instead. -/
def TaskCoordinator.markFailedAndReraise (task_name : String) (env : RunEnv)
    (e : String) (zk : ZKState) : PResult JValue × ZKState :=
  let completion_data := JValue.obj
    [("completed_at", JValue.num env.endTime),
     ("duration", JValue.num (env.endTime - env.startTime)),
     ("success", JValue.bool false),
     ("error", JValue.str e)]
  match ZookeeperClient.set_config zk env.cenv
      (TaskCoordinator.completionPath task_name) completion_data false with
  | (.ok _, zk1) => (.exc e, zk1)
  | (.exc e2, zk1) => (.exc e2, zk1)

/-- The body of TaskCoordinator.run_once (the statements inside its
`with distributed_lock` block): short-circuit to None when
`get_config(completion_path)` is truthy; otherwise run the task, record
`{completed_at, duration, success: True}` and return its result, or on an
exception record the failure and re-raise. -/
def TaskCoordinator.runOnceBody (task_name : String) (env : RunEnv)
    (zk1 : ZKState) : PResult JValue × ZKState :=
  match ZookeeperClient.get_config zk1 env.cenv
      (TaskCoordinator.completionPath task_name) none with
  | (.exc e, zk2) => (.exc e, zk2)
  | (.ok cfg, zk2) =>
    if pyTruthyOpt cfg then
      (.ok JValue.null, zk2)
    else
      match env.task with
      | .ret result =>
        match ZookeeperClient.set_config zk2 env.cenv
            (TaskCoordinator.completionPath task_name)
            (JValue.obj
              [("completed_at", JValue.num env.endTime),
               ("duration", JValue.num (env.endTime - env.startTime)),
               ("success", JValue.bool true)]) false with
        | (.ok _, zk3) => (.ok result, zk3)
        | (.exc e, zk3) => TaskCoordinator.markFailedAndReraise task_name env e zk3
      | .exn e => TaskCoordinator.markFailedAndReraise task_name env e zk2

/-- TaskCoordinator.run_once proper: the body above runs inside
`with distributed_lock("task-" + task_name, timeout=60)`. -/
def TaskCoordinator.run_once (task_name : String) (env : RunEnv)
    (zk0 : ZKState) : PResult JValue × ZKState :=
  distributed_lock ("task-" ++ task_name) 60 env.cenv env.lockOut
    (TaskCoordinator.runOnceBody task_name env) zk0

/-- TaskCoordinator.is_completed: the completion record exists and its
`success` field (defaulting to False) is truthy. Reading `.get` on a
non-dict payload would raise AttributeError. -/
def TaskCoordinator.is_completed (task_name : String) (st : ZKState)
    (cenv : ConnectEnv) : PResult Bool × ZKState :=
  match ZookeeperClient.get_config st cenv
      (TaskCoordinator.completionPath task_name) none with
  | (.exc e, st1) => (.exc e, st1)
  | (.ok none, st1) => (.ok false, st1)
  | (.ok (some c), st1) =>
    match pyDictGet c "success" (JValue.bool false) with
    | .ok v => (.ok v.truthy, st1)
    | .exc e => (.exc e, st1)

/-- State for the watch model: the node tree, whether the one-shot kazoo
watch set by watch_config on the watched path is currently armed, and the
values the user callback has been invoked with, oldest first. The session
is connected throughout (watch delivery needs a live session anyway). -/
structure WatchSys : Type where
  nodes : List (String × NodeData)
  armedWatch : Bool
  callbackValues : List JValue

/-- ZookeeperClient.watch_config: `self.client.get(path, watch=watcher)`
arms a single one-shot watch on the node; on NoNodeError only a warning is
logged and no watch exists. The watcher closure is modelled in
`applyDataChange`. -/
def ZookeeperClient.watch_config (path : String) (sys : WatchSys) : WatchSys :=
  if (storeGet sys.nodes path).isSome then
    { sys with armedWatch := true }
  else sys

/-- One committed data change on the watched path, followed by watch
delivery: the ensemble fires each armed watch exactly once and removes it.
The watcher sees EventType.CHANGED, reads `self.get_config(path)` (the new
value) and calls the callback only when that value is truthy. Nothing in
the watcher re-registers the watch. -/
def applyDataChange (path : String) (v : JValue) (sys : WatchSys) : WatchSys :=
  let nodes1 := storeSet sys.nodes path (some v)
  if sys.armedWatch then
    { nodes := nodes1,
      armedWatch := false,
      callbackValues :=
        match storeGet nodes1 path with
        | some (some w) =>
          if w.truthy then sys.callbackValues ++ [w] else sys.callbackValues
        | _ => sys.callbackValues }
  else { sys with nodes := nodes1 }

/-- A sequence of committed data changes on the watched path, oldest
first. -/
def applyDataChanges (path : String) (vs : List JValue) (sys : WatchSys) :
    WatchSys :=
  vs.foldl (fun s v => applyDataChange path v s) sys

/-- The parsed payload the store holds at a path, if any. -/
def parsedAt (nodes : List (String × NodeData)) (p : String) : Option JValue :=
  match storeGet nodes p with
  | some (some v) => some v
  | _ => none

theorem storeGet_storeSet_self (n : List (String × NodeData)) (p : String)
    (v : NodeData) : storeGet (storeSet n p v) p = some v := by
  simp [storeSet, storeGet]

theorem storeGet_storeDel_self (n : List (String × NodeData)) (p : String) :
    storeGet (storeDel n p) p = none := by
  induction n with
  | nil => rfl
  | cons kv t ih =>
    by_cases h : kv.1 = p
    · simpa [storeDel, h] using ih
    · simpa [storeDel, h, storeGet] using ih

theorem locksRemove_self (l : List String) (p : String) :
    p ∉ locksRemove l p := by
  induction l with
  | nil => simp [locksRemove]
  | cons q t ih =>
    by_cases h : q = p
    · simpa [locksRemove, h] using ih
    · simp only [locksRemove, if_neg h]
      intro hmem
      rcases List.mem_cons.mp hmem with h1 | h2
      · exact h h1.symm
      · exact ih h2

theorem ensureConnected_of_connected (st : ZKState) (cenv : ConnectEnv)
    (h : st.connected = true) :
    ZookeeperClient.ensureConnected st cenv = (.ok (), st) := by
  simp [ZookeeperClient.ensureConnected, h]

theorem get_config_spec (st : ZKState) (cenv : ConnectEnv) (p : String)
    (d : Option JValue) (h : st.connected = true) :
    ZookeeperClient.get_config st cenv p d =
      (.ok (match storeGet st.nodes p with
            | some (some v) => some v
            | _ => d), st) := by
  rcases hs : storeGet st.nodes p with _ | w
  · simp [ZookeeperClient.get_config, ensureConnected_of_connected st cenv h, hs]
  · cases w <;>
      simp [ZookeeperClient.get_config, ensureConnected_of_connected st cenv h, hs]

theorem get_config_none_spec (st : ZKState) (cenv : ConnectEnv) (p : String)
    (h : st.connected = true) :
    ZookeeperClient.get_config st cenv p none = (.ok (parsedAt st.nodes p), st) := by
  rw [get_config_spec st cenv p none h]
  unfold parsedAt
  rcases hs : storeGet st.nodes p with _ | w
  · rfl
  · cases w <;> rfl

theorem set_config_spec (st : ZKState) (cenv : ConnectEnv) (p : String)
    (v : JValue) (eph : Bool) (h : st.connected = true) :
    ZookeeperClient.set_config st cenv p v eph =
      (.ok (), { st with nodes := storeSet st.nodes p (some v) }) := by
  simp [ZookeeperClient.set_config, ensureConnected_of_connected st cenv h]

theorem release_lock_spec (st : ZKState) (cenv : ConnectEnv) (p : String)
    (h : st.connected = true) :
    ZookeeperClient.release_lock st cenv p =
      (.ok (), { st with locks := locksRemove st.locks p }) := by
  simp [ZookeeperClient.release_lock, ensureConnected_of_connected st cenv h]

theorem acquire_lock_spec (st : ZKState) (cenv : ConnectEnv) (p : String)
    (t : Nat) (out : LockOutcome) (h : st.connected = true) :
    ZookeeperClient.acquire_lock st cenv p t out =
      (match out with
       | .acquired => (.ok true, { st with locks := p :: st.locks })
       | .timedOut => (.ok false, st)
       | .err _ => (.ok false, st)) := by
  cases out <;>
    simp [ZookeeperClient.acquire_lock, ensureConnected_of_connected st cenv h]

/-- The completion record run_once writes when the task raised `e`. -/
def failureRecord (env : RunEnv) (e : String) : JValue :=
  JValue.obj
    [("completed_at", JValue.num env.endTime),
     ("duration", JValue.num (env.endTime - env.startTime)),
     ("success", JValue.bool false),
     ("error", JValue.str e)]

/-- The completion record run_once writes when the task succeeded. -/
def successRecord (env : RunEnv) : JValue :=
  JValue.obj
    [("completed_at", JValue.num env.endTime),
     ("duration", JValue.num (env.endTime - env.startTime)),
     ("success", JValue.bool true)]

theorem markFailedAndReraise_spec (task_name : String) (env : RunEnv)
    (e : String) (zk : ZKState) (h : zk.connected = true) :
    TaskCoordinator.markFailedAndReraise task_name env e zk =
      (.exc e, { zk with nodes := storeSet zk.nodes (TaskCoordinator.completionPath task_name) (some (failureRecord env e)) }) := by
  simp [TaskCoordinator.markFailedAndReraise, failureRecord,
    set_config_spec _ _ _ _ _ h]

theorem runOnceBody_spec (task_name : String) (env : RunEnv) (s : ZKState)
    (h : s.connected = true) :
    TaskCoordinator.runOnceBody task_name env s =
      (if pyTruthyOpt (parsedAt s.nodes (TaskCoordinator.completionPath task_name)) then
        (.ok JValue.null, s)
      else
        match env.task with
        | .ret r => (.ok r, { s with nodes := storeSet s.nodes (TaskCoordinator.completionPath task_name) (some (successRecord env)) })
        | .exn e => (.exc e, { s with nodes := storeSet s.nodes (TaskCoordinator.completionPath task_name) (some (failureRecord env e)) })) := by
  unfold TaskCoordinator.runOnceBody
  rw [get_config_none_spec _ _ _ h]
  cases ht : pyTruthyOpt (parsedAt s.nodes (TaskCoordinator.completionPath task_name)) with
  | true => simp [ht]
  | false =>
    rcases htask : env.task with r | e
    · simp [ht, htask, set_config_spec _ _ _ _ _ h, successRecord]
    · simp [ht, htask, markFailedAndReraise_spec _ _ _ _ h]

theorem runOnceBody_connected (task_name : String) (env : RunEnv)
    (s : ZKState) (h : s.connected = true) :
    ((TaskCoordinator.runOnceBody task_name env s).2).connected = true := by
  rw [runOnceBody_spec task_name env s h]
  cases ht : pyTruthyOpt (parsedAt s.nodes (TaskCoordinator.completionPath task_name)) with
  | true => simpa [ht] using h
  | false =>
    rcases htask : env.task with r | e <;> simpa [ht, htask] using h

theorem distributed_lock_not_mem_locks {α : Type} (lock_name : String)
    (timeout : Nat) (cenv : ConnectEnv) (out : LockOutcome)
    (body : ZKState → PResult α × ZKState) (zk0 : ZKState)
    (h : zk0.connected = true)
    (hbody : ∀ s, s.connected = true → ((body s).2).connected = true)
    (hmem : DistributedLock.lockPath lock_name ∉ zk0.locks) :
    DistributedLock.lockPath lock_name ∉
      (distributed_lock lock_name timeout cenv out body zk0).2.locks := by
  unfold distributed_lock DistributedLock.acquire
  dsimp only
  rw [acquire_lock_spec _ _ _ _ _ h]
  cases out with
  | acquired =>
    rcases hb : body { zk0 with locks := DistributedLock.lockPath lock_name :: zk0.locks } with ⟨r, zk2⟩
    have h2 : zk2.connected = true := by
      have hc := hbody { zk0 with locks := DistributedLock.lockPath lock_name :: zk0.locks } h
      rw [hb] at hc
      exact hc
    cases r <;>
      simp [hb, DistributedLock.release, release_lock_spec _ cenv _ h2,
        locksRemove_self]
  | timedOut => simpa [DistributedLock.release] using hmem
  | err e => simpa [DistributedLock.release] using hmem

theorem applyDataChanges_length_le (p : String) (vs : List JValue) :
    ∀ (sys : WatchSys),
      (applyDataChanges p vs sys).callbackValues.length ≤
        sys.callbackValues.length + (if sys.armedWatch then 1 else 0) := by
  induction vs with
  | nil => intro sys; simp [applyDataChanges]
  | cons v vs ih =>
    intro sys
    have h1 : applyDataChanges p (v :: vs) sys =
        applyDataChanges p vs (applyDataChange p v sys) := rfl
    rw [h1]
    refine le_trans (ih (applyDataChange p v sys)) ?_
    cases ha : sys.armedWatch with
    | false => simp [applyDataChange, ha]
    | true =>
      simp only [applyDataChange, ha, if_true, storeGet_storeSet_self]
      cases ht : v.truthy <;> simp [ht]

/-- The completion record run_once itself writes after a failed task run
(success False, error string), stored at /tasks/completed/reindex. -/
def c1failedRecord : JValue :=
  JValue.obj
    [("completed_at", JValue.num 100),
     ("duration", JValue.num 5),
     ("success", JValue.bool false),
     ("error", JValue.str "boom")]

/-- A connected client whose store holds only the failed completion
record for task reindex. -/
def c1state : ZKState :=
  { nodes := [("/tasks/completed/reindex", some c1failedRecord)],
    locks := [], connected := true }

/-- A benign environment: connection fine, lock available, task would
succeed returning the string "ran". -/
def c1env : RunEnv :=
  { cenv := .ok, lockOut := .acquired,
    task := .ret (JValue.str "ran"), startTime := 0, endTime := 1 }

/-- C1: the claim says run_once short-circuits iff a completion record
with success=True exists, so a record with success=False must not
suppress re-execution. The code checks only the truthiness of
get_config(completion_path), so with the success=False record that
run_once itself writes after a failure it still returns None without
invoking task_func (the result is identical for every task outcome) —
even though is_completed on the same state answers False. -/
theorem run_once_short_circuits_on_failed_completion_record :
    (TaskCoordinator.run_once "reindex" c1env c1state).1 = .ok JValue.null
    ∧ (∀ τ : TaskOutcome,
        TaskCoordinator.run_once "reindex" { c1env with task := τ } c1state =
          TaskCoordinator.run_once "reindex" c1env c1state)
    ∧ (TaskCoordinator.is_completed "reindex" c1state ConnectEnv.ok).1 = .ok false :=
  ⟨rfl, fun _ => rfl, rfl⟩

/-- A watched node that already exists with some initial payload. -/
def c2sys : WatchSys :=
  { nodes := [("/config/atonixcorp/feature", some (JValue.str "v0"))],
    armedWatch := false, callbackValues := [] }

/-- C2 counterexample: after one watch_config call, two data changes (to
the truthy values "v1" then "v2") invoke the callback once, not twice:
the kazoo watch is one-shot and the watcher never re-registers it. -/
theorem watch_config_does_not_rearm_cex :
    (applyDataChanges "/config/atonixcorp/feature"
        [JValue.str "v1", JValue.str "v2"]
        (ZookeeperClient.watch_config "/config/atonixcorp/feature" c2sys)).callbackValues
      = [JValue.str "v1"]
    ∧ (applyDataChanges "/config/atonixcorp/feature"
        [JValue.str "v1", JValue.str "v2"]
        (ZookeeperClient.watch_config "/config/atonixcorp/feature" c2sys)).callbackValues.length
      ≠ 2 :=
  ⟨rfl, by decide⟩

/-- C2 amended: a single watch_config call arms a one-shot watch that is
never re-armed, so any sequence of n data changes on the node produces at
most one callback invocation (with the first new value, and only when it
is truthy), not n invocations. -/
theorem watch_config_fires_at_most_once (p : String) (vs : List JValue)
    (sys : WatchSys) (h0 : sys.callbackValues = []) :
    (applyDataChanges p vs (ZookeeperClient.watch_config p sys)).callbackValues.length ≤ 1 := by
  refine le_trans (applyDataChanges_length_le p vs _) ?_
  unfold ZookeeperClient.watch_config
  cases hex : (storeGet sys.nodes p).isSome with
  | true => simp [hex, h0]
  | false =>
    cases ha : sys.armedWatch <;> simp [hex, h0, ha]

/-- Witness for the amended C2 theorem at a concrete system. -/
theorem watch_config_fires_at_most_once_witness :
    (applyDataChanges "/config/atonixcorp/feature"
        [JValue.str "v1", JValue.str "v2", JValue.str "v3"]
        (ZookeeperClient.watch_config "/config/atonixcorp/feature" c2sys)).callbackValues.length ≤ 1 :=
  watch_config_fires_at_most_once "/config/atonixcorp/feature"
    [JValue.str "v1", JValue.str "v2", JValue.str "v3"] c2sys rfl

/-- A disconnected client state used to exercise connect(). -/
def c3state : ZKState :=
  { nodes := [], locks := [], connected := false }

/-- C3 counterexample: when the underlying kazoo start raises its timeout
error (ensemble unreachable), connect re-raises that same exception — not
ConnectionError — while marking the client as not connected. -/
theorem connect_reraises_underlying_exception_cex :
    (ZookeeperClient.connect c3state (ConnectEnv.fail "KazooTimeoutError")).1
      = .exc "KazooTimeoutError"
    ∧ (ZookeeperClient.connect c3state (ConnectEnv.fail "KazooTimeoutError")).2.connected = false
    ∧ "KazooTimeoutError" ≠ "ConnectionError" :=
  ⟨rfl, rfl, by decide⟩

/-- C3 amended: connect() makes a single bounded attempt (one
client.start with a 30-second timeout; retries and backoff live inside
the kazoo client); on failure it marks the client not connected and
re-raises the underlying exception unchanged, which is kazoo's timeout
error rather than ConnectionError; on success it marks the client
connected, and a second successful connect leaves the same state. -/
theorem connect_failure_marks_disconnected_and_reraises :
    (∀ (st : ZKState) (e : String),
      ZookeeperClient.connect st (ConnectEnv.fail e) =
        (.exc e, { st with connected := false }))
    ∧ (∀ st : ZKState,
      ZookeeperClient.connect st ConnectEnv.ok =
        (.ok (), { st with connected := true }))
    ∧ (∀ st : ZKState,
      ZookeeperClient.connect
          (ZookeeperClient.connect st ConnectEnv.ok).2 ConnectEnv.ok =
        ZookeeperClient.connect st ConnectEnv.ok) :=
  ⟨fun _ _ => rfl, fun _ => rfl, fun _ => rfl⟩

/-- C4: when the 60-second lock acquisition of run_once times out, the
call raises RuntimeError, leaves the store untouched, and never invokes
task_func (the outcome is the same whatever the task would have done). -/
theorem run_once_lock_timeout_raises_runtime_error (task_name : String)
    (env : RunEnv) (st : ZKState) (h : st.connected = true)
    (ht : env.lockOut = LockOutcome.timedOut) :
    TaskCoordinator.run_once task_name env st = (.exc "RuntimeError", st)
    ∧ (∀ τ : TaskOutcome,
        TaskCoordinator.run_once task_name { env with task := τ } st =
          (.exc "RuntimeError", st)) := by
  constructor
  · simp [TaskCoordinator.run_once, distributed_lock, DistributedLock.acquire,
      ht, acquire_lock_spec _ _ _ _ _ h, DistributedLock.release]
  · intro τ
    simp [TaskCoordinator.run_once, distributed_lock, DistributedLock.acquire,
      ht, acquire_lock_spec _ _ _ _ _ h, DistributedLock.release]

/-- A connected, empty coordination store. -/
def cEmptyState : ZKState :=
  { nodes := [], locks := [], connected := true }

/-- An environment whose lock acquisition times out. -/
def c4env : RunEnv :=
  { cenv := .ok, lockOut := .timedOut,
    task := .ret (JValue.str "ran"), startTime := 0, endTime := 1 }

/-- Witness for C4 at a concrete state and environment. -/
theorem run_once_lock_timeout_raises_runtime_error_witness :
    TaskCoordinator.run_once "nightly" c4env cEmptyState =
      (.exc "RuntimeError", cEmptyState) :=
  (run_once_lock_timeout_raises_runtime_error "nightly" c4env cEmptyState rfl rfl).1

/-- C5: whenever a lock is taken through the scoped-acquisition pattern —
the distributed_lock context manager (or DistributedLock's enter/exit,
which perform the same acquire-or-RuntimeError and release) — the lock is
gone from the held set on every exit path: normal body return, body
exception (run_once's re-raised task failure and its already-completed
early return included), and the RuntimeError of a failed acquisition. -/
theorem scoped_lock_released_on_all_exit_paths :
    (∀ (α : Type) (lock_name : String) (timeout : Nat) (cenv : ConnectEnv)
        (out : LockOutcome) (body : ZKState → PResult α × ZKState) (zk0 : ZKState),
      zk0.connected = true →
      (∀ s, s.connected = true → ((body s).2).connected = true) →
      DistributedLock.lockPath lock_name ∉ zk0.locks →
      DistributedLock.lockPath lock_name ∉
        (distributed_lock lock_name timeout cenv out body zk0).2.locks)
    ∧ (∀ (task_name : String) (env : RunEnv) (zk0 : ZKState),
      zk0.connected = true →
      DistributedLock.lockPath ("task-" ++ task_name) ∉ zk0.locks →
      DistributedLock.lockPath ("task-" ++ task_name) ∉
        (TaskCoordinator.run_once task_name env zk0).2.locks) := by
  constructor
  · exact fun α ln t c o b z h hb hm =>
      distributed_lock_not_mem_locks ln t c o b z h hb hm
  · intro n env z h hm
    unfold TaskCoordinator.run_once
    exact distributed_lock_not_mem_locks _ _ _ _ _ z h
      (fun s hs => runOnceBody_connected n env s hs) hm

/-- An environment where everything succeeds. -/
def c5env : RunEnv :=
  { cenv := .ok, lockOut := .acquired,
    task := .ret (JValue.str "done"), startTime := 0, endTime := 1 }

/-- Witness for C5: a full successful run_once on an empty store leaves
its lock released. -/
theorem scoped_lock_released_on_all_exit_paths_witness :
    DistributedLock.lockPath "task-nightly" ∉
      (TaskCoordinator.run_once "nightly" c5env cEmptyState).2.locks :=
  scoped_lock_released_on_all_exit_paths.2 "nightly" c5env cEmptyState rfl
    (by simp [cEmptyState])

/-- C6: acquire_lock turns a lock-acquisition timeout (and any other
recipe-level error) into False rather than an exception, and answers True
exactly when the lock was acquired; DistributedLock.acquire, which wraps
it in one more try/except, likewise answers True exactly when the lock
was acquired. The timeout bound on blocking lives in the kazoo call the
oracle stands for. -/
theorem acquire_lock_timeout_returns_false (st : ZKState) (cenv : ConnectEnv)
    (p : String) (t : Nat) (out : LockOutcome) (h : st.connected = true) :
    ((ZookeeperClient.acquire_lock st cenv p t out).1 = .ok true ↔ out = .acquired)
    ∧ (out = .timedOut →
        ZookeeperClient.acquire_lock st cenv p t out = (.ok false, st))
    ∧ (∀ e, (ZookeeperClient.acquire_lock st cenv p t out).1 ≠ .exc e)
    ∧ (∀ (lock_name : String) (t2 : Nat) (dst : DLState),
        dst.zk.connected = true →
        ((DistributedLock.acquire lock_name t2 dst cenv out).1 = true ↔
          out = .acquired)) := by
  refine ⟨?_, ?_, ?_, ?_⟩
  · cases out <;> simp [acquire_lock_spec _ _ _ _ _ h]
  · intro ho
    subst ho
    simp [acquire_lock_spec _ _ _ _ _ h]
  · intro e
    cases out <;> simp [acquire_lock_spec _ _ _ _ _ h]
  · intro ln t2 dst hd
    cases out <;>
      simp [DistributedLock.acquire, acquire_lock_spec _ _ _ _ _ hd]

/-- Witness for C6: a concrete timed-out acquisition returns False and
leaves the state unchanged. -/
theorem acquire_lock_timeout_returns_false_witness :
    ZookeeperClient.acquire_lock cEmptyState ConnectEnv.ok "/locks/x" 30
        LockOutcome.timedOut = (.ok false, cEmptyState) :=
  (acquire_lock_timeout_returns_false cEmptyState ConnectEnv.ok "/locks/x" 30
    LockOutcome.timedOut rfl).2.1 rfl

/-- C7: with a connected client, set_setting(k, v) followed by
get_setting(k) yields v for every JSON value v, and remove_setting(k)
followed by get_setting(k, default=d) yields d (the key's node, a leaf in
this layout, is deleted even when absent beforehand). -/
theorem config_round_trip (app key desc : String) (v d : JValue)
    (st : ZKState) (cenv : ConnectEnv) (h : st.connected = true) :
    (ConfigManager.get_setting app
        ((ConfigManager.set_setting app st cenv key v desc).2) cenv key d).1 = .ok v
    ∧ (∀ st2 : ZKState, st2.connected = true →
        hasDescendant st2.nodes (ConfigManager.settingPath app key) = false →
        (ConfigManager.get_setting app
            ((ConfigManager.remove_setting app st2 cenv key).2) cenv key d).1 = .ok d) := by
  constructor
  · obtain ⟨nodes, locks, conn⟩ := st
    replace h : conn = true := h
    subst h
    simp [ConfigManager.set_setting, ConfigManager.get_setting,
      set_config_spec, get_config_none_spec, parsedAt, storeGet_storeSet_self,
      JValue.truthy, pyInCheck, assocGet, pySubscript]
  · intro st2 h2 hdesc
    obtain ⟨n2, l2, c2⟩ := st2
    replace h2 : c2 = true := h2
    subst h2
    rcases hg : storeGet n2 (ConfigManager.settingPath app key) with _ | w
    · simp [ConfigManager.remove_setting, ZookeeperClient.delete_node,
        ensureConnected_of_connected, hg, ConfigManager.get_setting,
        get_config_none_spec, parsedAt]
    · simp only [hasDescendant] at hdesc
      simp [ConfigManager.remove_setting, ZookeeperClient.delete_node,
        ensureConnected_of_connected, hg, hasDescendant, hdesc,
        ConfigManager.get_setting, get_config_none_spec, parsedAt,
        storeGet_storeDel_self]

/-- A connected store holding one unrelated node. -/
def c7state : ZKState :=
  { nodes := [("/config/atonixcorp/other", some (JValue.num 1))],
    locks := [], connected := true }

/-- Witness for C7 at concrete keys and values. -/
theorem config_round_trip_witness :
    (ConfigManager.get_setting "atonixcorp"
        ((ConfigManager.set_setting "atonixcorp" c7state ConnectEnv.ok "rate"
          (JValue.num 7) "requests per second").2) ConnectEnv.ok "rate"
        JValue.null).1 = .ok (JValue.num 7)
    ∧ (ConfigManager.get_setting "atonixcorp"
        ((ConfigManager.remove_setting "atonixcorp" c7state ConnectEnv.ok "rate").2)
        ConnectEnv.ok "rate" (JValue.str "fallback")).1 = .ok (JValue.str "fallback") :=
  ⟨(config_round_trip "atonixcorp" "rate" "requests per second" (JValue.num 7)
      JValue.null c7state ConnectEnv.ok rfl).1,
   (config_round_trip "atonixcorp" "rate" "requests per second" (JValue.num 7)
      (JValue.str "fallback") c7state ConnectEnv.ok rfl).2 c7state rfl (by decide)⟩

/-- C8: a missing node never surfaces as an exception at the
Configuration Store or Service Registry layer: get_config on an absent
path returns the given default, discover_service on an unknown service
name returns the empty list, and remove_setting on an absent key
completes without raising. -/
theorem missing_node_never_raises (st : ZKState) (cenv : ConnectEnv)
    (path : String) (d : Option JValue) (name app key : String)
    (h : st.connected = true) :
    (storeGet st.nodes path = none →
      ZookeeperClient.get_config st cenv path d = (.ok d, st))
    ∧ (storeGet st.nodes ("/services/" ++ name) = none →
      ServiceRegistry.discover_service st cenv name = (.ok [], st))
    ∧ (storeGet st.nodes (ConfigManager.settingPath app key) = none →
      ConfigManager.remove_setting app st cenv key = (.ok (), st)) := by
  obtain ⟨nodes, locks, conn⟩ := st
  replace h : conn = true := h
  subst h
  refine ⟨?_, ?_, ?_⟩
  · intro habs
    rw [get_config_spec _ _ _ _ rfl]
    simp [habs]
  · intro habs
    simp [ServiceRegistry.discover_service, ZookeeperClient.discover_services,
      ensureConnected_of_connected, habs]
  · intro habs
    simp [ConfigManager.remove_setting, ZookeeperClient.delete_node,
      ensureConnected_of_connected, habs]

/-- Witness for C8: on a store with one unrelated config node, all three
operations resolve a missing node benignly. -/
theorem missing_node_never_raises_witness :
    ZookeeperClient.get_config c7state ConnectEnv.ok "/config/atonixcorp/absent"
        (some (JValue.num 3)) = (.ok (some (JValue.num 3)), c7state)
    ∧ ServiceRegistry.discover_service c7state ConnectEnv.ok "backend" =
        (.ok [], c7state)
    ∧ ConfigManager.remove_setting "atonixcorp" c7state ConnectEnv.ok "absent" =
        (.ok (), c7state) :=
  ⟨(missing_node_never_raises c7state ConnectEnv.ok "/config/atonixcorp/absent"
      (some (JValue.num 3)) "backend" "atonixcorp" "absent" rfl).1 rfl,
   (missing_node_never_raises c7state ConnectEnv.ok "/config/atonixcorp/absent"
      (some (JValue.num 3)) "backend" "atonixcorp" "absent" rfl).2.1 rfl,
   (missing_node_never_raises c7state ConnectEnv.ok "/config/atonixcorp/absent"
      (some (JValue.num 3)) "backend" "atonixcorp" "absent" rfl).2.2 rfl⟩

/-- A lock object that believes it holds /locks/job while the client
session is down (for instance after an explicit disconnect). -/
def c9dl : DLState :=
  { zk := { nodes := [], locks := ["/locks/job"], connected := false },
    acquiredFlag := true }

/-- C9 counterexample: when the reconnect inside release_lock fails, the
exception is swallowed and the acquired flag is left set, so is_acquired
is still True after the release — the claim's "is_acquired is False after
any release" fails, and a second release would contact the store again. -/
theorem release_can_leave_is_acquired_true_cex :
    DistributedLock.is_acquired
      (DistributedLock.release "job" c9dl (ConnectEnv.fail "KazooTimeoutError")) = true :=
  rfl

/-- C9 amended: release is a no-op (no store contact) when the lock is
not held, never raises, and when the store contact succeeds it clears
the acquired flag, making a second release do nothing; but if the store
contact itself raises, the exception is swallowed with the flag left set,
so is_acquired is only guaranteed False after a release whose store call
succeeded. -/
theorem release_noop_and_clears_flag_on_success (lock_name : String)
    (st : DLState) (cenv : ConnectEnv) :
    (st.acquiredFlag = false → DistributedLock.release lock_name st cenv = st)
    ∧ (st.zk.connected = true →
        (DistributedLock.release lock_name st cenv).acquiredFlag = false
        ∧ DistributedLock.release lock_name
            (DistributedLock.release lock_name st cenv) cenv =
          DistributedLock.release lock_name st cenv) := by
  constructor
  · intro hf
    simp [DistributedLock.release, hf]
  · intro hc
    have hrel := release_lock_spec st.zk cenv (DistributedLock.lockPath lock_name) hc
    cases hf : st.acquiredFlag
    · constructor
      · simp [DistributedLock.release, hf]
      · simp [DistributedLock.release, hf]
    · constructor
      · simp [DistributedLock.release, hf, hrel]
      · simp [DistributedLock.release, hf, hrel]

/-- A lock object holding /locks/job over a live session. -/
def c9dlOk : DLState :=
  { zk := { nodes := [], locks := ["/locks/job"], connected := true },
    acquiredFlag := true }

/-- Witness for the amended C9 theorem: a release over a live session
clears the flag. -/
theorem release_noop_and_clears_flag_on_success_witness :
    (DistributedLock.release "job" c9dlOk ConnectEnv.ok).acquiredFlag = false :=
  ((release_noop_and_clears_flag_on_success "job" c9dlOk ConnectEnv.ok).2 rfl).1

/-- C10: on the executing path (lock acquired, no truthy completion
record), run_once returns exactly what task_func returned and records the
success marker — so a None return can only come from the short-circuit or
from a task that itself returned None. -/
theorem run_once_returns_task_value_on_executing_path (task_name : String)
    (env : RunEnv) (st : ZKState) (r : JValue)
    (h : st.connected = true) (hl : env.lockOut = LockOutcome.acquired)
    (htask : env.task = TaskOutcome.ret r)
    (hrec : pyTruthyOpt (parsedAt st.nodes
      (TaskCoordinator.completionPath task_name)) = false) :
    (TaskCoordinator.run_once task_name env st).1 = .ok r
    ∧ storeGet (TaskCoordinator.run_once task_name env st).2.nodes
        (TaskCoordinator.completionPath task_name) = some (some (successRecord env)) := by
  obtain ⟨nodes, locks, conn⟩ := st
  replace h : conn = true := h
  subst h
  constructor
  · simp [TaskCoordinator.run_once, distributed_lock, DistributedLock.acquire,
      hl, acquire_lock_spec, runOnceBody_spec, hrec, htask,
      DistributedLock.release, release_lock_spec]
  · simp [TaskCoordinator.run_once, distributed_lock, DistributedLock.acquire,
      hl, acquire_lock_spec, runOnceBody_spec, hrec, htask,
      DistributedLock.release, release_lock_spec, storeGet_storeSet_self]

/-- An environment for a successful run: lock acquired, task returns the
string "done". -/
def c10env : RunEnv :=
  { cenv := .ok, lockOut := .acquired,
    task := .ret (JValue.str "done"), startTime := 10, endTime := 12 }

/-- Witness for C10: a concrete executing run returns the task's value
and stores the success record. -/
theorem run_once_returns_task_value_witness :
    (TaskCoordinator.run_once "report" c10env cEmptyState).1 = .ok (JValue.str "done")
    ∧ storeGet (TaskCoordinator.run_once "report" c10env cEmptyState).2.nodes
        (TaskCoordinator.completionPath "report") = some (some (successRecord c10env)) :=
  run_once_returns_task_value_on_executing_path "report" c10env cEmptyState
    (JValue.str "done") rfl rfl rfl rfl
